import Mathlib

/-!
# Verification of the MTG Deck Builder backend

A shallow embedding of the backend's two source files (`main.py`, `schemas.py`)
and proofs about the properties of its card mapper, document serializer, deck
validation and deck CRUD handlers.

Modelling conventions:
* Python/JSON values stored in documents are modelled by the inductive `Value`
  (mutually with `ValueList` for JSON arrays and `DocFields` for the ordered
  key/value fields of a Python `dict` / BSON document).
* `None`-able lookups (`dict.get`) are modelled with `Option`.
* Python truthiness (`if not x:`, `if d.get(k):`) is modelled by explicit
  truthiness functions (`pyTruthy`, `truthyStr`, `truthyImgUris`).
* BSON `ObjectId` values are modelled by their 24-hex-character string form.
* `datetime` timestamps are modelled as `Nat` instants (`Value.vTime`).
* JSON numbers are modelled as exact rationals where fractional (`cmc`), and
  as `Int` where the source declares `int` (`quantity`).
* An HTTP handler outcome is an `HResp`: a success payload, an explicitly
  raised `HTTPException` (status + detail), or an uncaught Python exception,
  which the surrounding ASGI framework turns into a plain 500 response
  (`statusOf`).
-/

set_option autoImplicit false

namespace MTGBackend

/-! ## JSON / BSON values and documents -/

mutual

/-- A Python/JSON/BSON value as stored in documents and request bodies. -/
inductive Value where
  | vNull
  | vBool (b : Bool)
  | vInt (n : Int)
  | vNum (q : Rat)
  | vStr (s : String)
  | vOid (hex : String)
  | vTime (t : Nat)
  | vList (xs : ValueList)
  | vDoc (fields : DocFields)

/-- A JSON array of values. -/
inductive ValueList where
  | nil
  | cons (v : Value) (tail : ValueList)

/-- The ordered fields of a Python `dict` / BSON document. -/
inductive DocFields where
  | nil
  | cons (key : String) (val : Value) (tail : DocFields)

end

deriving instance DecidableEq for Value, ValueList, DocFields

namespace ValueList

/-- Map a function over every element of a JSON array. -/
def map (f : Value → Value) : ValueList → ValueList
  | .nil => .nil
  | .cons v t => .cons (f v) (map f t)

/-- Build a `ValueList` from a Lean list. -/
def ofList : List Value → ValueList
  | [] => .nil
  | v :: t => .cons v (ofList t)

/-- Emptiness test, mirroring Python truthiness of a list. -/
def isEmpty : ValueList → Bool
  | .nil => true
  | .cons _ _ => false

end ValueList

namespace DocFields

/-- First value stored under key `k`, i.e. `d.get(k)` / `d[k]`. -/
def lookup : DocFields → String → Option Value
  | .nil, _ => none
  | .cons k v t, key => if k = key then some v else lookup t key

/-- Key membership test, i.e. `k in d`. -/
def hasKey : DocFields → String → Bool
  | .nil, _ => false
  | .cons k _ t, key => if k = key then true else hasKey t key

/-- Removal of a key, i.e. `d.pop(k)` ignoring the returned value. -/
def eraseKey : DocFields → String → DocFields
  | .nil, _ => .nil
  | .cons k v t, key => if k = key then eraseKey t key else .cons k v (eraseKey t key)

/-- Replace the value stored under an existing key, keeping its position. -/
def replaceKey : DocFields → String → Value → DocFields
  | .nil, _, _ => .nil
  | .cons k v t, key, w => if k = key then .cons k w (replaceKey t key w)
      else .cons k v (replaceKey t key w)

/-- Concatenation of field sequences. -/
def append : DocFields → DocFields → DocFields
  | .nil, b => b
  | .cons k v t, b => .cons k v (append t b)

/-- Assignment `d[k] = v`: update in place when the key exists, else insert
at the end (CPython dict semantics). -/
def setKey (d : DocFields) (key : String) (w : Value) : DocFields :=
  if d.hasKey key then d.replaceKey key w else d.append (.cons key w .nil)

/-- Apply a function to every value, keeping keys and order. -/
def mapVals (f : Value → Value) : DocFields → DocFields
  | .nil => .nil
  | .cons k v t => .cons k (f v) (mapVals f t)

/-- The keys of the document, in order. -/
def keys : DocFields → List String
  | .nil => []
  | .cons k _ t => k :: keys t

/-- Emptiness test, mirroring Python truthiness of a dict. -/
def isEmpty : DocFields → Bool
  | .nil => true
  | .cons _ _ _ => false

end DocFields

/-- Python truthiness of a stored value (`bool(v)`). `ObjectId` and `datetime`
instances are always truthy; numbers, strings and containers are truthy iff
non-zero / non-empty. -/
def pyTruthy : Value → Bool
  | .vNull => false
  | .vBool b => b
  | .vInt n => n != 0
  | .vNum q => q != 0
  | .vStr s => s != ""
  | .vOid _ => true
  | .vTime _ => true
  | .vList xs => !xs.isEmpty
  | .vDoc f => !f.isEmpty

/-- Python `str(v)`. Only the `ObjectId` case is exercised by the backend
(`str` of an `ObjectId` is its 24-character hex form); the remaining cases are
best-effort renderings and are never relied upon by any theorem. -/
def pyStr : Value → String
  | .vNull => "None"
  | .vBool true => "True"
  | .vBool false => "False"
  | .vInt n => toString n
  | .vNum q => toString q
  | .vStr s => s
  | .vOid hex => hex
  | .vTime t => toString t
  | .vList _ => "[...]"
  | .vDoc _ => "{...}"

/-! ## `serialize_doc` (main.py lines 39-51) -/

/-- One element of the list comprehension in `serialize_doc`:
`str(x) if isinstance(x, ObjectId) else x`. -/
def convertElem : Value → Value
  | .vOid hex => .vStr hex
  | v => v

/-- The loop body of `serialize_doc` applied to one field value: a top-level
`ObjectId` is stringified; a list has its (direct) `ObjectId` elements
stringified; everything else passes through. -/
def convTop : Value → Value
  | .vOid hex => .vStr hex
  | .vList xs => .vList (xs.map convertElem)
  | v => v

/-- Function `serialize_doc` from main.py: rename a truthy `_id` to a string-valued
`id` field, then convert `ObjectId` values (top-level ones and direct list
elements) to strings. An empty document is returned unchanged. -/
def serialize_doc (doc : DocFields) : DocFields :=
  if doc = .nil then doc
  else
    let doc1 :=
      match doc.lookup "_id" with
      | some v => if pyTruthy v then (doc.eraseKey "_id").setKey "id" (.vStr (pyStr v)) else doc
      | none => doc
    doc1.mapVals convTop

/-! ## Card Data Mapper (main.py lines 58-116) -/

/-- First-match association lookup, used for string-keyed JSON objects. -/
def alookup {α : Type} : List (String × α) → String → Option α
  | [], _ => none
  | (k, v) :: t, key => if k = key then some v else alookup t key

/-- Insert/replace in a string-keyed association, mirroring dict assignment. -/
def aset {α : Type} : List (String × α) → String → α → List (String × α)
  | [], key, w => [(key, w)]
  | (k, v) :: t, key, w => if k = key then (k, w) :: t else (k, v) :: aset t key w

/-- A Scryfall `image_uris` object: size name to URL. -/
abbrev ImgUris := List (String × String)

/-- One entry of a Scryfall `card_faces` array (the fields the mapper reads).
`none` stands for an absent or JSON-null field. -/
structure Face where
  image_uris : Option ImgUris
  mana_cost : Option String
  type_line : Option String
  oracle_text : Option String
deriving DecidableEq

/-- A raw Scryfall card record (the fields the mapper reads).
`none` stands for an absent or JSON-null field. -/
structure Card where
  id : Option String
  name : Option String
  mana_cost : Option String
  type_line : Option String
  oracle_text : Option String
  colors : Option (List String)
  image_uris : Option ImgUris
  card_faces : Option (List Face)
deriving DecidableEq

/-- The UI-friendly card shape returned by `map_scryfall_card`. -/
structure MappedCard where
  scryfall_id : Option String
  name : Option String
  mana_cost : Option String
  type_line : Option String
  oracle_text : Option String
  colors : Option (List String)
  image_small : Option String
  image_front_small : Option String
  image_front_normal : Option String
  image_back_small : Option String
  image_back_normal : Option String
  has_back : Bool
deriving DecidableEq

/-- Python truthiness of an optional string (`None` and `""` are falsy). -/
def truthyStr : Option String → Bool
  | none => false
  | some s => s != ""

/-- Python truthiness of an optional `image_uris` object
(`None` and `{}` are falsy). -/
def truthyImgUris : Option ImgUris → Bool
  | none => false
  | some l => !l.isEmpty

/-- Lookup of one size inside an optional `image_uris` object. -/
def imgGet (o : Option ImgUris) (k : String) : Option String :=
  match o with
  | none => none
  | some l => alookup l k

/-- Function `_face_images` from main.py: the (small, normal) pair of a face, `None`
when the face's `image_uris` is absent or falsy. -/
def face_images (face : Face) : Option String × Option String :=
  if truthyImgUris face.image_uris then
    (imgGet face.image_uris "small", imgGet face.image_uris "normal")
  else (none, none)

/-- Function `map_scryfall_card` from main.py. Front images come from a truthy
top-level `image_uris`, else from face 0; back images from face 1 when at
least two faces exist; text fields keep a truthy top-level value and fall
back to face 0 otherwise. -/
def map_scryfall_card (card : Card) : MappedCard :=
  let faces := card.card_faces.getD []
  let front :=
    if truthyImgUris card.image_uris then
      (imgGet card.image_uris "small", imgGet card.image_uris "normal")
    else
      match faces with
      | face0 :: _ => face_images face0
      | [] => (none, none)
  let back :=
    match faces with
    | _ :: face1 :: _ => face_images face1
    | _ => (none, none)
  let mana_cost :=
    match faces with
    | face0 :: _ => if truthyStr card.mana_cost then card.mana_cost else face0.mana_cost
    | [] => card.mana_cost
  let type_line :=
    match faces with
    | face0 :: _ => if truthyStr card.type_line then card.type_line else face0.type_line
    | [] => card.type_line
  let oracle_text :=
    match faces with
    | face0 :: _ => if truthyStr card.oracle_text then card.oracle_text else face0.oracle_text
    | [] => card.oracle_text
  { scryfall_id := card.id
    name := card.name
    mana_cost := mana_cost
    type_line := type_line
    oracle_text := oracle_text
    colors := card.colors
    image_small := front.1
    image_front_small := front.1
    image_front_normal := front.2
    image_back_small := back.1
    image_back_normal := back.2
    has_back := truthyStr back.1 || truthyStr back.2 }

/-! ## HTTP handler outcomes -/

/-- The outcome of one HTTP handler invocation: a success payload, an
`HTTPException` raised by the handler, or an uncaught Python exception. -/
inductive HResp (α : Type) where
  | ok (body : α)
  | httpError (status : Nat) (detail : String)
  | exn (msg : String)
deriving DecidableEq

/-- The HTTP status code the client observes. An uncaught exception is turned
into a plain 500 response by the ASGI framework's server-error middleware. -/
def statusOf {α : Type} : HResp α → Nat
  | .ok _ => 200
  | .httpError s _ => s
  | .exn _ => 500

/-! ## External Card Search Client (main.py lines 124-145) -/

/-- The fields of a Scryfall search-response JSON body that the handler
reads. `none` stands for an absent field. -/
structure SearchJson where
  details : Option String
  total_cards : Option Nat
  has_more : Option Bool
  next_page : Option String
  data : Option (List Card)
deriving DecidableEq

/-- An HTTP response from Scryfall: status code plus the parsed JSON body
(`none` when the body is not parseable JSON). -/
structure ScryResp where
  status : Nat
  body : Option SearchJson
deriving DecidableEq

/-- The outcome of the outbound `requests.get` call: either the bounded
timeout elapsed, or a response arrived. -/
inductive FetchOutcome where
  | timeout
  | completed (resp : ScryResp)

/-- The success envelope assembled by `search_cards`. -/
structure SearchEnvelope where
  object : String
  total_cards : Option Nat
  has_more : Bool
  next_page : Option String
  data : List MappedCard
deriving DecidableEq

/-- Handler `search_cards` from main.py, with the outbound call's outcome passed in
explicitly. `requests.Timeout` is caught and converted to a fixed 504; a
non-200 status is forwarded with a best-effort `details` message; on 200 the
records are mapped. An unparseable 200 body makes `resp.json()` raise, which
is not caught. -/
def search_cards (q : String) (page : Int) (fetch : FetchOutcome) :
    HResp SearchEnvelope :=
  match fetch with
  | .timeout => .httpError 504 "Scryfall request timed out"
  | .completed resp =>
    if resp.status ≠ 200 then
      .httpError resp.status
        (match resp.body with
         | some j => j.details.getD "Scryfall error"
         | none => "Scryfall error")
    else
      match resp.body with
      | none => .exn "JSONDecodeError"
      | some j =>
        .ok { object := "list"
              total_cards := j.total_cards
              has_more := j.has_more.getD false
              next_page := j.next_page
              data := (j.data.getD []).map map_scryfall_card }

/-! ## Deck schemas and validation (schemas.py) -/

/-- The fixed enumeration of deck formats from `schemas.Deck`. -/
def deckFormats : List String :=
  ["commander", "modern", "standard", "pioneer", "legacy", "vintage",
   "pauper", "brawl", "historic", "casual"]

/-- A raw `DeckCard` request fragment before validation. A required or
defaulted field is `Option (Option _)`: the outer `none` means the key was
omitted, `some none` means an explicit JSON `null`. Fields whose schema type
is already `Optional` collapse `null` and omission into a single `none`. -/
structure RawDeckCard where
  scryfall_id : Option (Option String)
  name : Option (Option String)
  quantity : Option (Option Int)
  mana_cost : Option String
  type_line : Option String
  colors : Option (List String)
  image_small : Option String
  image_front_small : Option String
  image_back_small : Option String
  cmc : Option Rat
  color_identity : Option (List String)
deriving DecidableEq

/-- A validated `DeckCard` (schemas.py lines 19-31). -/
structure DeckCard where
  scryfall_id : String
  name : String
  quantity : Int
  mana_cost : Option String
  type_line : Option String
  colors : Option (List String)
  image_small : Option String
  image_front_small : Option String
  image_back_small : Option String
  cmc : Option Rat
  color_identity : Option (List String)
deriving DecidableEq

/-- Pydantic validation of one `DeckCard`: `scryfall_id` and `name` are
required strings; `quantity` defaults to 1 and must lie in 1..99; the
remaining fields are optional pass-throughs. -/
def validateCard (r : RawDeckCard) : Option DeckCard := do
  let sid ← r.scryfall_id.join
  let nm ← r.name.join
  let q ←
    match r.quantity with
    | none => some 1
    | some none => none
    | some (some n) => if 1 ≤ n ∧ n ≤ 99 then some n else none
  pure { scryfall_id := sid, name := nm, quantity := q,
         mana_cost := r.mana_cost, type_line := r.type_line,
         colors := r.colors, image_small := r.image_small,
         image_front_small := r.image_front_small,
         image_back_small := r.image_back_small,
         cmc := r.cmc, color_identity := r.color_identity }

/-- A raw `Deck` request body before validation, with the same
omitted-vs-null convention as `RawDeckCard`. -/
structure RawDeck where
  name : Option (Option String)
  format : Option (Option String)
  description : Option String
  cards : Option (Option (List RawDeckCard))
  commander_id : Option String
  commander_name : Option String
  commander_colors : Option (List String)
deriving DecidableEq

/-- A validated `Deck` (schemas.py lines 33-53). The `format` is `Option`
because the schema declares it `Optional` (an explicit `null` is kept). -/
structure Deck where
  name : String
  format : Option String
  description : Option String
  cards : List DeckCard
  commander_id : Option String
  commander_name : Option String
  commander_colors : Option (List String)
deriving DecidableEq

/-- Pydantic validation of a `Deck` body: `name` is a required string of
length 1..120; `format` defaults to "casual" when omitted, may be an explicit
`null`, and otherwise must belong to `deckFormats`; `description` is capped
at 500 characters; `cards` defaults to the empty list, may not be `null`, and
validates element-wise. -/
def validateDeck (r : RawDeck) : Option Deck := do
  let nm ← r.name.join
  if 1 ≤ nm.length ∧ nm.length ≤ 120 then
    let fmt ←
      match r.format with
      | none => some (some "casual")
      | some none => some none
      | some (some s) => if s ∈ deckFormats then some (some s) else none
    let dsc ←
      match r.description with
      | none => some none
      | some s => if s.length ≤ 500 then some (some s) else none
    let cs ←
      match r.cards with
      | none => some []
      | some none => none
      | some (some l) => l.mapM validateCard
    pure { name := nm, format := fmt, description := dsc, cards := cs,
           commander_id := r.commander_id,
           commander_name := r.commander_name,
           commander_colors := r.commander_colors }
  else none

/-! ## Deck Repository handlers (main.py lines 166-215) -/

/-- Validity of a string as a BSON `ObjectId`: exactly 24 hexadecimal
characters (`bson.ObjectId.is_valid` for string input). -/
def ObjectId.is_valid (s : String) : Bool :=
  s.length == 24 &&
    s.toList.all (fun c =>
      c.isDigit || ('a' ≤ c && c ≤ 'f') || ('A' ≤ c && c ≤ 'F'))

/-- The deck collection: `ObjectId` hex string to stored document. -/
abbrev Store := List (String × DocFields)

/-- Handler `get_deck` (GET /api/decks/deck_id). An invalid identifier makes
the `ObjectId` constructor raise `bson.errors.InvalidId` before the lookup;
an absent deck raises a 404 `HTTPException`; otherwise the serialized
document is returned. -/
def get_deck (dbOpt : Option Store) (deck_id : String) : HResp Value :=
  match dbOpt with
  | none => .httpError 500 "Database not configured"
  | some store =>
    if ObjectId.is_valid deck_id then
      match alookup store deck_id with
      | none => .httpError 404 "Deck not found"
      | some doc => .ok (.vDoc (serialize_doc doc))
    else .exn "bson.errors.InvalidId"

/-- The `DeckUpdate` pydantic model (main.py lines 184-188) after parsing:
pydantic stores `None` both for an omitted field and for an explicit `null`. -/
structure DeckUpdate where
  name : Option String
  format : Option String
  description : Option String
  cards : Option (List DeckCard)
deriving DecidableEq

/-- A raw `DeckUpdate` request body, distinguishing omitted fields (`none`)
from explicit `null` (`some none`). -/
structure DeckUpdateRaw where
  name : Option (Option String)
  format : Option (Option String)
  description : Option (Option String)
  cards : Option (Option (List DeckCard))
deriving DecidableEq

/-- Pydantic parsing of a `DeckUpdate` body: every field defaults to `None`,
so an explicit `null` and an omitted key become indistinguishable. -/
def parseDeckUpdate (r : DeckUpdateRaw) : DeckUpdate :=
  { name := r.name.join, format := r.format.join,
    description := r.description.join, cards := r.cards.join }

/-- Contribution of one optional field to a `model_dump(exclude_none=True)`
result: nothing when `None`, one key/value pair otherwise. -/
def optField (key : String) : Option Value → DocFields
  | none => .nil
  | some v => .cons key v .nil

/-- Dump of a validated `DeckCard` with `exclude_none=True` (pydantic applies
the exclusion recursively), in schema field order. -/
def DeckCard.dump (c : DeckCard) : DocFields :=
  .cons "scryfall_id" (.vStr c.scryfall_id)
    (.cons "name" (.vStr c.name)
      (.cons "quantity" (.vInt c.quantity)
        ((optField "mana_cost" (c.mana_cost.map .vStr)).append
          ((optField "type_line" (c.type_line.map .vStr)).append
            ((optField "colors"
                (c.colors.map (fun l => .vList (ValueList.ofList (l.map .vStr))))).append
              ((optField "image_small" (c.image_small.map .vStr)).append
                ((optField "image_front_small" (c.image_front_small.map .vStr)).append
                  ((optField "image_back_small" (c.image_back_small.map .vStr)).append
                    ((optField "cmc" (c.cmc.map .vNum)).append
                      (optField "color_identity"
                        (c.color_identity.map
                          (fun l => .vList (ValueList.ofList (l.map .vStr))))))))))))))

/-- The dictionary comprehension of `update_deck`:
`payload.model_dump(exclude_none=True)`, in model field order. -/
def DeckUpdate.toSet (p : DeckUpdate) : DocFields :=
  (optField "name" (p.name.map .vStr)).append
    ((optField "format" (p.format.map .vStr)).append
      ((optField "description" (p.description.map .vStr)).append
        (optField "cards"
          (p.cards.map
            (fun cs => .vList (ValueList.ofList (cs.map (fun c => .vDoc c.dump))))))))

/-- Sequential application of a MongoDB `$set` document to a stored
document: each listed field is overwritten or created. -/
def applySet : DocFields → DocFields → DocFields
  | d, .nil => d
  | d, .cons k v rest => applySet (d.setKey k v) rest

/-- The result object of a MongoDB `update_one`. -/
structure UpdateResult where
  matched_count : Nat
  modified_count : Nat
deriving DecidableEq

/-- MongoDB `update_one` with a `$set` update: `matched_count` counts the
document found by the `_id` filter; `modified_count` counts it only when the
`$set` actually changed it. -/
def update_one (store : Store) (oidHex : String) (setDoc : DocFields) :
    UpdateResult × Store :=
  match alookup store oidHex with
  | none => ({ matched_count := 0, modified_count := 0 }, store)
  | some d =>
    let d2 := applySet d setDoc
    ({ matched_count := 1, modified_count := if d2 = d then 0 else 1 },
     aset store oidHex d2)

/-- The JSON body of a PUT /api/decks response. -/
def updatedBody (b : Bool) : Value := .vDoc (.cons "updated" (.vBool b) .nil)

/-- Handler `update_deck` (PUT /api/decks/deck_id), with the wall-clock
instant of `datetime.utcnow()` passed in explicitly. An empty
`exclude_none=True` dump short-circuits to an `updated: false` response with
no store access; otherwise `updated_at` is stamped into the `$set`, an
invalid identifier makes the `ObjectId` constructor raise, a missing deck
raises 404, and otherwise `updated` reports `modified_count > 0`. -/
def update_deck (dbOpt : Option Store) (deck_id : String) (payload : DeckUpdate)
    (now : Nat) : HResp Value × Option Store :=
  match dbOpt with
  | none => (.httpError 500 "Database not configured", none)
  | some store =>
    let update_doc := payload.toSet
    if update_doc = .nil then (.ok (updatedBody false), some store)
    else
      let update_doc := update_doc.append (.cons "updated_at" (.vTime now) .nil)
      if ObjectId.is_valid deck_id then
        let (res, store2) := update_one store deck_id update_doc
        if res.matched_count = 0 then (.httpError 404 "Deck not found", some store2)
        else (.ok (updatedBody (decide (0 < res.modified_count))), some store2)
      else (.exn "bson.errors.InvalidId", some store)

/-! ## Association and document lemmas -/

/-- Single-motive structural induction for `ValueList`. -/
@[induction_eliminator]
def ValueList.induct (motive : ValueList → Prop) (hnil : motive .nil)
    (hcons : ∀ v t, motive t → motive (.cons v t)) : ∀ xs, motive xs
  | .nil => hnil
  | .cons v t => hcons v t (ValueList.induct motive hnil hcons t)

/-- Single-motive structural induction for `DocFields`. -/
@[induction_eliminator]
def DocFields.induct (motive : DocFields → Prop) (hnil : motive .nil)
    (hcons : ∀ k v t, motive t → motive (.cons k v t)) : ∀ d, motive d
  | .nil => hnil
  | .cons k v t => hcons k v t (DocFields.induct motive hnil hcons t)

namespace DocFields

theorem lookup_mapVals (f : Value → Value) (d : DocFields) (key : String) :
    (d.mapVals f).lookup key = (d.lookup key).map f := by
  induction d with
  | hnil => rfl
  | hcons k v t ih =>
    by_cases h : k = key <;> simp [mapVals, lookup, h, ih]

theorem lookup_eraseKey_self (d : DocFields) (key : String) :
    (d.eraseKey key).lookup key = none := by
  induction d with
  | hnil => rfl
  | hcons k v t ih =>
    by_cases h : k = key <;> simp [eraseKey, lookup, h, ih]

theorem lookup_eraseKey_ne (d : DocFields) (key k : String) (h : k ≠ key) :
    (d.eraseKey key).lookup k = d.lookup k := by
  induction d with
  | hnil => rfl
  | hcons k2 v t ih =>
    by_cases h3 : k2 = k
    · simp [eraseKey, lookup, h3, h, ih]
    · by_cases h2 : k2 = key <;> simp [eraseKey, lookup, h2, h3, ih, Ne.symm h]

theorem lookup_append (a b : DocFields) (key : String) :
    (a.append b).lookup key =
      match a.lookup key with
      | some v => some v
      | none => b.lookup key := by
  induction a with
  | hnil => rfl
  | hcons k v t ih =>
    by_cases h : k = key <;> simp [append, lookup, h, ih]

theorem hasKey_eq_isSome_lookup (d : DocFields) (key : String) :
    d.hasKey key = (d.lookup key).isSome := by
  induction d with
  | hnil => rfl
  | hcons k v t ih =>
    by_cases h : k = key <;> simp [hasKey, lookup, h, ih]

theorem hasKey_iff_mem_keys (d : DocFields) (key : String) :
    d.hasKey key = true ↔ key ∈ d.keys := by
  induction d with
  | hnil => simp [hasKey, keys]
  | hcons k v t ih =>
    by_cases h : k = key
    · simp [hasKey, keys, h]
    · simp [hasKey, keys, h, ih, Ne.symm h]

theorem lookup_eq_none_of_not_mem_keys (d : DocFields) (key : String)
    (h : key ∉ d.keys) : d.lookup key = none := by
  induction d with
  | hnil => rfl
  | hcons k v t ih =>
    simp [keys] at h
    simp [lookup, Ne.symm h.1, ih h.2]

theorem lookup_replaceKey_ne (d : DocFields) (key k : String) (w : Value)
    (h : k ≠ key) : (d.replaceKey key w).lookup k = d.lookup k := by
  induction d with
  | hnil => rfl
  | hcons k2 v t ih =>
    by_cases h3 : k2 = k
    · simp [replaceKey, lookup, h3, h, ih]
    · by_cases h2 : k2 = key <;> simp [replaceKey, lookup, h2, h3, ih, Ne.symm h]

theorem lookup_replaceKey_self (d : DocFields) (key : String) (w : Value)
    (h : d.hasKey key = true) : (d.replaceKey key w).lookup key = some w := by
  induction d with
  | hnil => simp [hasKey] at h
  | hcons k v t ih =>
    by_cases h2 : k = key
    · simp [replaceKey, lookup, h2]
    · simp [hasKey, h2] at h
      simp [replaceKey, lookup, h2, ih h]

theorem lookup_setKey_self (d : DocFields) (key : String) (w : Value) :
    (d.setKey key w).lookup key = some w := by
  unfold setKey
  by_cases h : d.hasKey key = true
  · simp [h, lookup_replaceKey_self d key w h]
  · simp only [h, Bool.false_eq_true, if_false, if_neg]
    rw [lookup_append]
    rw [lookup_eq_none_of_not_mem_keys d key
      (fun hm => by simp [(hasKey_iff_mem_keys d key).2 hm] at h)]
    simp [lookup]

theorem lookup_setKey_ne (d : DocFields) (key k : String) (w : Value)
    (h : k ≠ key) : (d.setKey key w).lookup k = d.lookup k := by
  unfold setKey
  by_cases hh : d.hasKey key = true
  · simp [hh, lookup_replaceKey_ne d key k w h]
  · simp only [hh, Bool.false_eq_true, if_false, if_neg]
    rw [lookup_append]
    cases hl : d.lookup k <;> simp [lookup, Ne.symm h]

theorem replaceKey_of_not_hasKey (d : DocFields) (key : String) (w : Value)
    (h : d.hasKey key = false) : d.replaceKey key w = d := by
  induction d with
  | hnil => rfl
  | hcons k v t ih =>
    by_cases h2 : k = key
    · simp [hasKey, h2] at h
    · simp [hasKey, h2] at h
      simp [replaceKey, h2, ih h]

theorem setKey_eq_self (d : DocFields) (key : String) (w : Value)
    (hnd : d.keys.Nodup) (h : d.lookup key = some w) : d.setKey key w = d := by
  have hk : d.hasKey key = true := by
    simp [hasKey_eq_isSome_lookup, h]
  unfold setKey
  rw [if_pos hk]
  clear hk
  induction d with
  | hnil => simp [lookup] at h
  | hcons k2 v t ih =>
    simp [keys] at hnd
    by_cases h2 : k2 = key
    · subst h2
      simp [lookup] at h
      have ht : t.hasKey k2 = false := by
        cases hht : t.hasKey k2
        · rfl
        · exact absurd ((hasKey_iff_mem_keys t k2).1 hht) hnd.1
      simp [replaceKey, h, replaceKey_of_not_hasKey t k2 w ht]
    · simp [lookup, h2] at h
      simp [replaceKey, h2, ih hnd.2 h]

theorem mapVals_ext (f g : Value → Value) (d : DocFields)
    (h : ∀ v, f v = g v) : d.mapVals f = d.mapVals g := by
  induction d with
  | hnil => rfl
  | hcons k v t ih => simp [mapVals, h, ih]

theorem mapVals_mapVals (f g : Value → Value) (d : DocFields) :
    (d.mapVals g).mapVals f = d.mapVals (fun v => f (g v)) := by
  induction d with
  | hnil => rfl
  | hcons k v t ih => simp [mapVals, ih]

theorem mapVals_eq_nil_iff (f : Value → Value) (d : DocFields) :
    d.mapVals f = .nil ↔ d = .nil := by
  cases d <;> simp [mapVals]

theorem ne_nil_of_lookup_eq_some (d : DocFields) (key : String) (v : Value)
    (h : d.lookup key = some v) : d ≠ .nil := by
  cases d with
  | nil => simp [lookup] at h
  | cons k w t => simp

end DocFields

theorem ValueList.map_convertElem_idem (xs : ValueList) :
    (xs.map convertElem).map convertElem = xs.map convertElem := by
  induction xs with
  | hnil => rfl
  | hcons v t ih =>
    cases v <;> simp [ValueList.map, convertElem, ih]

theorem convTop_idem (v : Value) : convTop (convTop v) = convTop v := by
  cases v <;> simp [convTop, ValueList.map_convertElem_idem]

mutual

/-- Deep search for a BSON `ObjectId` anywhere inside a value. -/
def Value.hasOid : Value → Bool
  | .vOid _ => true
  | .vList xs => xs.hasOid
  | .vDoc fs => fs.hasOid
  | _ => false

/-- Deep search for a BSON `ObjectId` inside an array. -/
def ValueList.hasOid : ValueList → Bool
  | .nil => false
  | .cons v t => v.hasOid || t.hasOid

/-- Deep search for a BSON `ObjectId` inside document fields. -/
def DocFields.hasOid : DocFields → Bool
  | .nil => false
  | .cons _ v t => v.hasOid || t.hasOid

end

/-! ## Claim C8: the Document Serializer -/

/-- C8 counterexample. The claim says `serialize_doc` converts every internal
identifier value nested inside a list-valued field to its string form, but the
conversion only looks at the direct elements of a list: an `ObjectId` one
level deeper (inside a list inside the list-valued field) survives
serialization unchanged, as this concrete document shows. -/
theorem C8_counterexample :
    (DocFields.cons "_id" (.vOid "aaaaaaaaaaaaaaaaaaaaaaaa")
        (.cons "xs"
          (.vList (.cons (.vList (.cons (.vOid "bbbbbbbbbbbbbbbbbbbbbbbb") .nil)) .nil))
          .nil)).lookup "xs"
      = some (.vList (.cons (.vList (.cons (.vOid "bbbbbbbbbbbbbbbbbbbbbbbb") .nil)) .nil))
    ∧ (serialize_doc
        (DocFields.cons "_id" (.vOid "aaaaaaaaaaaaaaaaaaaaaaaa")
          (.cons "xs"
            (.vList (.cons (.vList (.cons (.vOid "bbbbbbbbbbbbbbbbbbbbbbbb") .nil)) .nil))
            .nil))).lookup "xs"
      = some (.vList (.cons (.vList (.cons (.vOid "bbbbbbbbbbbbbbbbbbbbbbbb") .nil)) .nil))
    ∧ Value.hasOid
        (.vList (.cons (.vList (.cons (.vOid "bbbbbbbbbbbbbbbbbbbbbbbb") .nil)) .nil))
      = true :=
  ⟨rfl, rfl, rfl⟩

/-- C8 (amended): `serialize_doc` returns an empty document unchanged; when
the document stores an `ObjectId` under `_id`, the output carries its hex
string under `id` and no `_id` field; and every other field's value is
rewritten by exactly `convTop`, which stringifies an identifier-valued field
or the identifiers that are *immediate* elements of a list-valued field and
leaves everything else (including more deeply nested identifiers)
unchanged. -/
theorem C8_amended :
    serialize_doc .nil = .nil
    ∧ (∀ (doc : DocFields) (oid : String),
        doc.lookup "_id" = some (.vOid oid) →
        (serialize_doc doc).lookup "id" = some (.vStr oid)
          ∧ (serialize_doc doc).lookup "_id" = none)
    ∧ (∀ (doc : DocFields) (k : String) (v : Value),
        k ≠ "_id" → k ≠ "id" → doc.lookup k = some v →
        (serialize_doc doc).lookup k = some (convTop v)) := by
  refine ⟨rfl, ?_, ?_⟩
  · intro doc oid hid
    have hne : doc ≠ .nil := DocFields.ne_nil_of_lookup_eq_some doc "_id" _ hid
    have hs : serialize_doc doc
        = ((doc.eraseKey "_id").setKey "id" (.vStr oid)).mapVals convTop := by
      unfold serialize_doc
      simp [hne, hid, pyTruthy, pyStr]
    rw [hs]
    constructor
    · rw [DocFields.lookup_mapVals, DocFields.lookup_setKey_self]
      simp [convTop]
    · rw [DocFields.lookup_mapVals,
        DocFields.lookup_setKey_ne _ _ _ _ (by decide),
        DocFields.lookup_eraseKey_self]
      rfl
  · intro doc k v hk1 hk2 hv
    have hne : doc ≠ .nil := DocFields.ne_nil_of_lookup_eq_some doc k v hv
    cases hid : doc.lookup "_id" with
    | none =>
      have hs : serialize_doc doc = doc.mapVals convTop := by
        unfold serialize_doc
        simp [hne, hid]
      rw [hs, DocFields.lookup_mapVals, hv]
      rfl
    | some w =>
      cases hw : pyTruthy w with
      | false =>
        have hs : serialize_doc doc = doc.mapVals convTop := by
          unfold serialize_doc
          simp [hne, hid, hw]
        rw [hs, DocFields.lookup_mapVals, hv]
        rfl
      | true =>
        have hs : serialize_doc doc
            = ((doc.eraseKey "_id").setKey "id" (.vStr (pyStr w))).mapVals convTop := by
          unfold serialize_doc
          simp [hne, hid, hw]
        rw [hs, DocFields.lookup_mapVals,
          DocFields.lookup_setKey_ne _ _ _ _ hk2,
          DocFields.lookup_eraseKey_ne _ _ _ hk1, hv]
        rfl

/-- C8 amended witness: the amended theorem evaluated on a concrete
two-field document holding an `ObjectId` under `_id` and a list with a
direct `ObjectId` element. -/
theorem C8_amended_witness :
    (serialize_doc
        (DocFields.cons "_id" (.vOid "cccccccccccccccccccccccc")
          (.cons "ys" (.vList (.cons (.vOid "dddddddddddddddddddddddd") .nil)) .nil))).lookup "id"
      = some (.vStr "cccccccccccccccccccccccc")
    ∧ (serialize_doc
        (DocFields.cons "_id" (.vOid "cccccccccccccccccccccccc")
          (.cons "ys" (.vList (.cons (.vOid "dddddddddddddddddddddddd") .nil)) .nil))).lookup "ys"
      = some (convTop (.vList (.cons (.vOid "dddddddddddddddddddddddd") .nil))) :=
  ⟨(C8_amended.2.1
      (DocFields.cons "_id" (.vOid "cccccccccccccccccccccccc")
        (.cons "ys" (.vList (.cons (.vOid "dddddddddddddddddddddddd") .nil)) .nil))
      "cccccccccccccccccccccccc" rfl).1,
    C8_amended.2.2
      (DocFields.cons "_id" (.vOid "cccccccccccccccccccccccc")
        (.cons "ys" (.vList (.cons (.vOid "dddddddddddddddddddddddd") .nil)) .nil))
      "ys" (.vList (.cons (.vOid "dddddddddddddddddddddddd") .nil))
      (by decide) (by decide) rfl⟩

/-! ## Claim C9: serializer idempotence -/

/-- C9: on any document without a raw `_id` field (in particular on any
already-serialized document), applying `serialize_doc` twice equals applying
it once. -/
theorem C9_serialize_idempotent (x : DocFields) (h : x.lookup "_id" = none) :
    serialize_doc (serialize_doc x) = serialize_doc x := by
  by_cases hx : x = DocFields.nil
  · subst hx; rfl
  · have h1 : serialize_doc x = x.mapVals convTop := by
      unfold serialize_doc
      simp [hx, h]
    have hx2 : x.mapVals convTop ≠ .nil := by
      simp [DocFields.mapVals_eq_nil_iff, hx]
    have h2 : (x.mapVals convTop).lookup "_id" = none := by
      simp [DocFields.lookup_mapVals, h]
    rw [h1]
    unfold serialize_doc
    simp only [hx2, if_neg, h2]
    rw [DocFields.mapVals_mapVals]
    exact DocFields.mapVals_ext _ _ x (fun v => convTop_idem v)

/-- C9 witness: idempotence evaluated on a concrete serialized-looking
document (string `id`, list field with a stray `ObjectId` element). -/
theorem C9_serialize_idempotent_witness :
    (DocFields.cons "id" (.vStr "eeeeeeeeeeeeeeeeeeeeeeee")
        (.cons "zs" (.vList (.cons (.vOid "ffffffffffffffffffffffff") .nil)) .nil)).lookup "_id"
      = none
    ∧ serialize_doc
        (serialize_doc
          (DocFields.cons "id" (.vStr "eeeeeeeeeeeeeeeeeeeeeeee")
            (.cons "zs" (.vList (.cons (.vOid "ffffffffffffffffffffffff") .nil)) .nil)))
      = serialize_doc
          (DocFields.cons "id" (.vStr "eeeeeeeeeeeeeeeeeeeeeeee")
            (.cons "zs" (.vList (.cons (.vOid "ffffffffffffffffffffffff") .nil)) .nil)) :=
  ⟨rfl,
    C9_serialize_idempotent
      (DocFields.cons "id" (.vStr "eeeeeeeeeeeeeeeeeeeeeeee")
        (.cons "zs" (.vList (.cons (.vOid "ffffffffffffffffffffffff") .nil)) .nil)) rfl⟩

/-! ## Claim C1: top-level text fields of the mapper -/

/-- Raw card refuting C1: the top-level text fields are present (as the empty
string, which is falsy in Python), so the face fallback still fires. -/
def c1card : Card :=
  { id := none, name := some "Westvale Abbey", mana_cost := some "",
    type_line := some "", oracle_text := some "", colors := none,
    image_uris := none,
    card_faces := some
      [{ image_uris := none, mana_cost := some "{5}", type_line := some "Land",
         oracle_text := some "Tap: add one colorless mana." }] }

/-- C1 counterexample: a record whose top-level `mana_cost`, `type_line` and
`oracle_text` are present (empty strings) is nevertheless mapped to the first
face's values, not the top-level values verbatim, because the source tests
Python truthiness (`if not mana_cost`) rather than presence. -/
theorem C1_counterexample :
    c1card.mana_cost = some "" ∧ c1card.type_line = some ""
    ∧ c1card.oracle_text = some ""
    ∧ (map_scryfall_card c1card).mana_cost = some "{5}"
    ∧ (map_scryfall_card c1card).type_line = some "Land"
    ∧ (map_scryfall_card c1card).oracle_text = some "Tap: add one colorless mana." :=
  ⟨rfl, rfl, rfl, rfl, rfl, rfl⟩

/-- C1 (amended): for every raw card record whose top-level `mana_cost`,
`type_line` or `oracle_text` is present *and non-empty*, the mapped card
carries that top-level value verbatim, regardless of any face content. -/
theorem C1_amended (card : Card) :
    (∀ s, card.mana_cost = some s → s ≠ "" →
      (map_scryfall_card card).mana_cost = some s)
    ∧ (∀ s, card.type_line = some s → s ≠ "" →
      (map_scryfall_card card).type_line = some s)
    ∧ (∀ s, card.oracle_text = some s → s ≠ "" →
      (map_scryfall_card card).oracle_text = some s) := by
  refine ⟨?_, ?_, ?_⟩ <;>
    · intro s hs hne
      cases hfc : card.card_faces.getD [] with
      | nil => simp [map_scryfall_card, hfc, hs]
      | cons f0 rest => simp [map_scryfall_card, hfc, hs, truthyStr, hne]

/-- C1 amended witness: the amended theorem applied to a concrete two-faced
record with non-empty top-level text fields. -/
theorem C1_amended_witness :
    (map_scryfall_card
        { id := none, name := some "Wall", mana_cost := some "{W}",
          type_line := some "Creature", oracle_text := some "Defender",
          colors := none, image_uris := none,
          card_faces := some
            [{ image_uris := none, mana_cost := some "{9}",
               type_line := some "Artifact", oracle_text := some "Other" }] }).mana_cost
      = some "{W}"
    ∧ (map_scryfall_card
        { id := none, name := some "Wall", mana_cost := some "{W}",
          type_line := some "Creature", oracle_text := some "Defender",
          colors := none, image_uris := none,
          card_faces := some
            [{ image_uris := none, mana_cost := some "{9}",
               type_line := some "Artifact", oracle_text := some "Other" }] }).oracle_text
      = some "Defender" :=
  ⟨(C1_amended
      { id := none, name := some "Wall", mana_cost := some "{W}",
        type_line := some "Creature", oracle_text := some "Defender",
        colors := none, image_uris := none,
        card_faces := some
          [{ image_uris := none, mana_cost := some "{9}",
             type_line := some "Artifact", oracle_text := some "Other" }] }).1
      "{W}" rfl (by decide),
   (C1_amended
      { id := none, name := some "Wall", mana_cost := some "{W}",
        type_line := some "Creature", oracle_text := some "Defender",
        colors := none, image_uris := none,
        card_faces := some
          [{ image_uris := none, mana_cost := some "{9}",
             type_line := some "Artifact", oracle_text := some "Other" }] }).2.2
      "Defender" rfl (by decide)⟩

/-! ## Claim C2: image selection and the back-face flag -/

theorem face_images_eq (f : Face) :
    face_images f = (imgGet f.image_uris "small", imgGet f.image_uris "normal") := by
  unfold face_images
  cases hf : f.image_uris with
  | none => simp [truthyImgUris, imgGet]
  | some l =>
    cases l with
    | nil => simp [truthyImgUris, imgGet, alookup]
    | cons p t => simp [truthyImgUris, imgGet]

/-- Raw card refuting C2: the top-level `image_uris` is present but empty
(falsy), and the second face's small image is the empty string (non-null but
falsy). -/
def c2card : Card :=
  { id := none, name := none, mana_cost := none, type_line := none,
    oracle_text := none, colors := none, image_uris := some [],
    card_faces := some
      [{ image_uris := some [("small", "front0")], mana_cost := none,
         type_line := none, oracle_text := none },
       { image_uris := some [("small", "")], mana_cost := none,
         type_line := none, oracle_text := none }] }

/-- C2 counterexample: with a present-but-empty top-level `image_uris` the
mapper takes the front image from face 0 (the claim requires the top-level
value, i.e. null); and with a non-null but empty back-small image the
`has_back` flag is `false` (the claim requires `true` since one back image
field is non-null). -/
theorem C2_counterexample :
    c2card.image_uris = some []
    ∧ imgGet c2card.image_uris "small" = none
    ∧ (map_scryfall_card c2card).image_front_small = some "front0"
    ∧ (map_scryfall_card c2card).image_back_small = some ""
    ∧ (map_scryfall_card c2card).image_back_normal = none
    ∧ (map_scryfall_card c2card).has_back = false :=
  ⟨rfl, rfl, rfl, rfl, rfl, rfl⟩

/-- C2 (amended): front images come from the top-level `image_uris` when it
is present and non-empty (truthy), otherwise from face 0's `image_uris` when
at least one face exists and null otherwise; back images come from face 1's
`image_uris` exactly when at least two faces exist; and `has_back` is true
iff either back image is non-null *and non-empty* (truthy). -/
theorem C2_amended (c : Card) :
    (truthyImgUris c.image_uris = true →
      (map_scryfall_card c).image_front_small = imgGet c.image_uris "small"
      ∧ (map_scryfall_card c).image_front_normal = imgGet c.image_uris "normal")
    ∧ (truthyImgUris c.image_uris = false →
      (map_scryfall_card c).image_front_small
          = ((c.card_faces.getD []).head?.elim none
              (fun f => imgGet f.image_uris "small"))
      ∧ (map_scryfall_card c).image_front_normal
          = ((c.card_faces.getD []).head?.elim none
              (fun f => imgGet f.image_uris "normal")))
    ∧ ((map_scryfall_card c).image_back_small
          = (((c.card_faces.getD []).get? 1).elim none
              (fun f => imgGet f.image_uris "small"))
      ∧ (map_scryfall_card c).image_back_normal
          = (((c.card_faces.getD []).get? 1).elim none
              (fun f => imgGet f.image_uris "normal")))
    ∧ ((map_scryfall_card c).has_back = true ↔
        truthyStr (map_scryfall_card c).image_back_small = true
        ∨ truthyStr (map_scryfall_card c).image_back_normal = true) := by
  refine ⟨?_, ?_, ?_, ?_⟩
  · intro ht
    constructor <;> simp [map_scryfall_card, ht]
  · intro ht
    cases hfc : c.card_faces.getD [] with
    | nil => constructor <;> simp [map_scryfall_card, ht, hfc]
    | cons f0 rest =>
      constructor <;> simp [map_scryfall_card, ht, hfc, face_images_eq]
  · by_cases ht : truthyImgUris c.image_uris = true <;>
      · cases hfc : c.card_faces.getD [] with
        | nil => constructor <;> simp [map_scryfall_card, ht, hfc]
        | cons f0 rest =>
          cases rest with
          | nil => constructor <;> simp [map_scryfall_card, ht, hfc]
          | cons f1 rest2 =>
            constructor <;> simp [map_scryfall_card, ht, hfc, face_images_eq]
  · by_cases ht : truthyImgUris c.image_uris = true <;>
      · cases hfc : c.card_faces.getD [] with
        | nil => simp [map_scryfall_card, ht, hfc]
        | cons f0 rest =>
          cases rest with
          | nil => simp [map_scryfall_card, ht, hfc]
          | cons f1 rest2 => simp [map_scryfall_card, ht, hfc]

/-- C2 amended witness: the amended theorem evaluated on two concrete cards,
one with a truthy top-level `image_uris`, one without. -/
theorem C2_amended_witness :
    ((map_scryfall_card
        { id := none, name := none, mana_cost := none, type_line := none,
          oracle_text := none, colors := none,
          image_uris := some [("small", "ts"), ("normal", "tn")],
          card_faces := none }).image_front_small
      = imgGet (some [("small", "ts"), ("normal", "tn")]) "small"
      ∧ (map_scryfall_card
        { id := none, name := none, mana_cost := none, type_line := none,
          oracle_text := none, colors := none,
          image_uris := some [("small", "ts"), ("normal", "tn")],
          card_faces := none }).image_front_normal
      = imgGet (some [("small", "ts"), ("normal", "tn")]) "normal")
    ∧ ((map_scryfall_card
        { id := none, name := none, mana_cost := none, type_line := none,
          oracle_text := none, colors := none, image_uris := none,
          card_faces := some
            [{ image_uris := some [("small", "f0s")], mana_cost := none,
               type_line := none, oracle_text := none }] }).image_front_small
      = some "f0s"
      ∧ (map_scryfall_card
        { id := none, name := none, mana_cost := none, type_line := none,
          oracle_text := none, colors := none, image_uris := none,
          card_faces := some
            [{ image_uris := some [("small", "f0s")], mana_cost := none,
               type_line := none, oracle_text := none }] }).image_front_normal
      = none) :=
  ⟨(C2_amended
      { id := none, name := none, mana_cost := none, type_line := none,
        oracle_text := none, colors := none,
        image_uris := some [("small", "ts"), ("normal", "tn")],
        card_faces := none }).1 rfl,
   (C2_amended
      { id := none, name := none, mana_cost := none, type_line := none,
        oracle_text := none, colors := none, image_uris := none,
        card_faces := some
          [{ image_uris := some [("small", "f0s")], mana_cost := none,
             type_line := none, oracle_text := none }] }).2.1 rfl⟩

/-! ## Claim C4: invalid identifier vs not-found on GET /api/decks -/

/-- C4 counterexample: with the store configured and empty, a structurally
invalid identifier produces HTTP status 500 (the `ObjectId` constructor
raises an uncaught `InvalidId`), while a structurally valid identifier with
no matching deck produces 404 — the two statuses are not the same. -/
theorem C4_counterexample :
    ObjectId.is_valid "not-an-objectid" = false
    ∧ ObjectId.is_valid "0123456789abcdef01234567" = true
    ∧ alookup ([] : Store) "0123456789abcdef01234567" = none
    ∧ statusOf (get_deck (some ([] : Store)) "not-an-objectid") = 500
    ∧ statusOf (get_deck (some ([] : Store)) "0123456789abcdef01234567") = 404 :=
  ⟨by decide, by decide, rfl, by decide, by decide⟩

/-- C4 (amended): with the store configured, a structurally invalid
identifier yields HTTP 500 (uncaught invalid-identifier exception), whereas a
structurally valid identifier for which no deck exists yields 404; the
not-found and invalid-identifier cases are therefore observably distinct. -/
theorem C4_amended (store : Store) (badId goodId : String)
    (hbad : ObjectId.is_valid badId = false)
    (hgood : ObjectId.is_valid goodId = true)
    (habsent : alookup store goodId = none) :
    statusOf (get_deck (some store) badId) = 500
    ∧ statusOf (get_deck (some store) goodId) = 404 := by
  constructor
  · simp [get_deck, hbad, statusOf]
  · simp [get_deck, hgood, habsent, statusOf]

/-- C4 amended witness: the amended theorem evaluated on the empty store with
a concrete malformed and a concrete well-formed identifier. -/
theorem C4_amended_witness :
    statusOf (get_deck (some ([] : Store)) "zzz") = 500
    ∧ statusOf (get_deck (some ([] : Store)) "abcdefabcdefabcdefabcdef") = 404 :=
  C4_amended [] "zzz" "abcdefabcdefabcdefabcdef" (by decide) (by decide) rfl

/-! ## Claim C5: search timeout handling -/

/-- C5: whenever the outbound search call times out, `search_cards` answers
with the fixed status 504 and detail "Scryfall request timed out",
independent of the query and page and of anything the service would have
answered. -/
theorem C5_timeout_504 (q : String) (page : Int) :
    search_cards q page .timeout = .httpError 504 "Scryfall request timed out" :=
  rfl

/-! ## Claim C6: deck creation validation -/

/-- C6 counterexample: a body supplying `format` as an explicit JSON `null` —
a value that is not one of the fixed enumeration — nevertheless passes
validation (the schema declares `format` as `Optional`), so "fails validation
for every body whose format is not one of the fixed enumeration" is false as
stated. -/
theorem C6_counterexample :
    ({ name := some (some "Burn"), format := some none, description := none,
       cards := none, commander_id := none, commander_name := none,
       commander_colors := none } : RawDeck).format = some none
    ∧ (∀ s ∈ deckFormats, (some none : Option (Option String)) ≠ some (some s))
    ∧ validateDeck
        { name := some (some "Burn"), format := some none, description := none,
          cards := none, commander_id := none, commander_name := none,
          commander_colors := none }
      = some { name := "Burn", format := none, description := none, cards := [],
               commander_id := none, commander_name := none,
               commander_colors := none } :=
  ⟨rfl, by decide, by decide⟩

/-- C6 (amended): deck validation fails for every body that supplies a
non-null `format` outside the fixed enumeration, and for every body that
supplies an empty or over-long (>120 characters) `name`; a `format` supplied
as explicit `null` is accepted; and every otherwise valid body with `format`
omitted validates with format "casual". -/
theorem C6_amended :
    (∀ (r : RawDeck) (s : String), r.format = some (some s) →
        s ∉ deckFormats → validateDeck r = none)
    ∧ (∀ (r : RawDeck) (s : String), r.name = some (some s) →
        (s.length = 0 ∨ 120 < s.length) → validateDeck r = none)
    ∧ (∀ r : RawDeck, r.format = none →
        (∃ s, r.name = some (some s) ∧ 1 ≤ s.length ∧ s.length ≤ 120) →
        (r.description = none ∨ ∃ s, r.description = some s ∧ s.length ≤ 500) →
        (r.cards = none
          ∨ ∃ l cs, r.cards = some (some l) ∧ l.mapM validateCard = some cs) →
        ∃ d, validateDeck r = some d ∧ d.format = some "casual") := by
  refine ⟨?_, ?_, ?_⟩
  · intro r s hf hs
    cases hn : r.name with
    | none => simp [validateDeck, hn, Option.join]
    | some o =>
      cases o with
      | none => simp [validateDeck, hn, Option.join]
      | some nm => simp [validateDeck, hn, Option.join, hf, hs]
  · intro r s hn hbad
    have hcond : ¬ (1 ≤ s.length ∧ s.length ≤ 120) := by
      rcases hbad with h | h <;> omega
    simp [validateDeck, hn, Option.join, hcond]
  · intro r hf hname hdesc hcards
    obtain ⟨nm, hn, h1, h2⟩ := hname
    rcases hdesc with hd | ⟨sd, hd, hsd⟩ <;>
      rcases hcards with hc | ⟨l, cs, hc, hmc⟩
    · exact ⟨{ name := nm, format := some "casual", description := none,
               cards := [], commander_id := r.commander_id,
               commander_name := r.commander_name,
               commander_colors := r.commander_colors },
             by simp [validateDeck, hn, Option.join, h1, h2, hf, hd, hc], rfl⟩
    · refine ⟨{ name := nm, format := some "casual", description := none,
                cards := cs, commander_id := r.commander_id,
                commander_name := r.commander_name,
                commander_colors := r.commander_colors }, ?_, rfl⟩
      have hmc2 : List.mapM.loop validateCard l [] = some cs := by
        simpa [List.mapM] using hmc
      simp [validateDeck, hn, Option.join, h1, h2, hf, hd, hc, hmc2]
    · exact ⟨{ name := nm, format := some "casual", description := some sd,
               cards := [], commander_id := r.commander_id,
               commander_name := r.commander_name,
               commander_colors := r.commander_colors },
             by simp [validateDeck, hn, Option.join, h1, h2, hf, hd, hsd, hc], rfl⟩
    · refine ⟨{ name := nm, format := some "casual", description := some sd,
                cards := cs, commander_id := r.commander_id,
                commander_name := r.commander_name,
                commander_colors := r.commander_colors }, ?_, rfl⟩
      have hmc2 : List.mapM.loop validateCard l [] = some cs := by
        simpa [List.mapM] using hmc
      simp [validateDeck, hn, Option.join, h1, h2, hf, hd, hsd, hc, hmc2]

/-- C6 amended witness: the amended theorem evaluated on three concrete
bodies — an unknown format, an empty name, and a valid body with `format`
omitted. -/
theorem C6_amended_witness :
    validateDeck
      { name := some (some "Burn2"), format := some (some "frontier"),
        description := none, cards := none, commander_id := none,
        commander_name := none, commander_colors := none } = none
    ∧ validateDeck
      { name := some (some ""), format := none, description := none,
        cards := none, commander_id := none, commander_name := none,
        commander_colors := none } = none
    ∧ ∃ d, validateDeck
        { name := some (some "Izzet Spells"), format := none,
          description := none, cards := none, commander_id := none,
          commander_name := none, commander_colors := none }
        = some d ∧ d.format = some "casual" :=
  ⟨C6_amended.1
      { name := some (some "Burn2"), format := some (some "frontier"),
        description := none, cards := none, commander_id := none,
        commander_name := none, commander_colors := none }
      "frontier" rfl (by decide),
   C6_amended.2.1
      { name := some (some ""), format := none, description := none,
        cards := none, commander_id := none, commander_name := none,
        commander_colors := none }
      "" rfl (Or.inl rfl),
   C6_amended.2.2
      { name := some (some "Izzet Spells"), format := none,
        description := none, cards := none, commander_id := none,
        commander_name := none, commander_colors := none }
      rfl ⟨"Izzet Spells", rfl, by decide, by decide⟩ (Or.inl rfl) (Or.inl rfl)⟩

/-! ## Claim C7: empty update body is a pure no-op -/

/-- C7: an update whose parsed body supplies no fields returns
`updated: false` without raising, and the store — every document, every
timestamp — is returned exactly as it was: the handler short-circuits before
any store operation or identifier parsing. -/
theorem C7_empty_update_noop (store : Store) (deck_id : String) (now : Nat) :
    update_deck (some store) deck_id
      { name := none, format := none, description := none, cards := none } now
      = (.ok (updatedBody false), some store) :=
  rfl

/-! ## MongoDB update lemmas -/

theorem DocFields.lookup_applySet_not_mem (s : DocFields) (key : String)
    (h : key ∉ s.keys) :
    ∀ d : DocFields, (applySet d s).lookup key = d.lookup key := by
  induction s with
  | hnil => intro d; rfl
  | hcons k w rest ih =>
    intro d
    simp [DocFields.keys] at h
    have hstep : applySet d (.cons k w rest) = applySet (d.setKey k w) rest := rfl
    rw [hstep, ih h.2, DocFields.lookup_setKey_ne _ _ _ _ h.1]

theorem DocFields.lookup_applySet_of_lookup (s : DocFields) (key : String)
    (v : Value) (hnd : s.keys.Nodup) (h : s.lookup key = some v) :
    ∀ d : DocFields, (applySet d s).lookup key = some v := by
  induction s with
  | hnil => simp [DocFields.lookup] at h
  | hcons k w rest ih =>
    intro d
    simp [DocFields.keys] at hnd
    have hstep : applySet d (.cons k w rest) = applySet (d.setKey k w) rest := rfl
    by_cases hk : k = key
    · subst hk
      simp [DocFields.lookup] at h
      rw [hstep, DocFields.lookup_applySet_not_mem rest k hnd.1, h,
        DocFields.lookup_setKey_self]
    · simp [DocFields.lookup, hk] at h
      rw [hstep, ih hnd.2 h]

theorem DocFields.applySet_eq_self_iff (d s : DocFields)
    (hs : s.keys.Nodup) (hd : d.keys.Nodup) :
    applySet d s = d
      ↔ ∀ (k : String) (v : Value), s.lookup k = some v → d.lookup k = some v := by
  induction s with
  | hnil =>
    constructor
    · intro _ k v hl
      simp [DocFields.lookup] at hl
    · intro _
      rfl
  | hcons k w rest ih =>
    simp [DocFields.keys] at hs
    have hstep : applySet d (.cons k w rest) = applySet (d.setKey k w) rest := rfl
    constructor
    · intro happ
      have hk : d.lookup k = some w := by
        have h1 : (applySet (d.setKey k w) rest).lookup k
            = (d.setKey k w).lookup k :=
          DocFields.lookup_applySet_not_mem rest k hs.1 (d.setKey k w)
        rw [hstep] at happ
        rw [happ] at h1
        rw [h1, DocFields.lookup_setKey_self]
      have hset : d.setKey k w = d := DocFields.setKey_eq_self d k w hd hk
      have happ2 : applySet d rest = d := by
        rw [hstep, hset] at happ
        exact happ
      intro k2 v2 hl
      by_cases hk2 : k = k2
      · subst hk2
        simp [DocFields.lookup] at hl
        exact hl ▸ hk
      · simp [DocFields.lookup, hk2] at hl
        exact (ih hs.2).1 happ2 k2 v2 hl
    · intro hall
      have hk : d.lookup k = some w := hall k w (by simp [DocFields.lookup])
      have hset : d.setKey k w = d := DocFields.setKey_eq_self d k w hd hk
      rw [hstep, hset]
      refine (ih hs.2).2 ?_
      intro k2 v2 hl
      refine hall k2 v2 ?_
      by_cases hk2 : k = k2
      · subst hk2
        rw [DocFields.lookup_eq_none_of_not_mem_keys rest k hs.1] at hl
        exact absurd hl (by simp)
      · simp [DocFields.lookup, hk2]
        exact hl

/-- The keys written by an update — the supplied fields plus the stamped
`updated_at` — are pairwise distinct for every payload. -/
theorem DeckUpdate.toSet_full_keys_nodup (p : DeckUpdate) (now : Nat) :
    ((p.toSet).append (.cons "updated_at" (.vTime now) .nil)).keys.Nodup := by
  rcases p with ⟨n, f, ds, cs⟩
  cases n <;> cases f <;> cases ds <;> cases cs <;>
    simp [DeckUpdate.toSet, optField, DocFields.append, DocFields.keys]

/-! ## Claim C3: the meaning of the updated flag -/

/-- C3 counterexample: updating an existing deck with `name := "A"` when the
stored name is already "A" returns `updated: true` — the stamped `updated_at`
value (current instant 1, stored instant 0) differs, so `modified_count` is 1
even though no supplied field value differed from the stored value. -/
theorem C3_counterexample :
    DeckUpdate.toSet
        { name := some "A", format := none, description := none, cards := none }
      = .cons "name" (.vStr "A") .nil
    ∧ (DocFields.cons "_id" (.vOid "aaaaaaaaaaaaaaaaaaaaaaaa")
        (.cons "name" (.vStr "A")
          (.cons "updated_at" (.vTime 0) .nil))).lookup "name"
      = some (.vStr "A")
    ∧ (update_deck
        (some [("aaaaaaaaaaaaaaaaaaaaaaaa",
          DocFields.cons "_id" (.vOid "aaaaaaaaaaaaaaaaaaaaaaaa")
            (.cons "name" (.vStr "A")
              (.cons "updated_at" (.vTime 0) .nil)))])
        "aaaaaaaaaaaaaaaaaaaaaaaa"
        { name := some "A", format := none, description := none, cards := none }
        1).1
      = .ok (updatedBody true) := by
  refine ⟨by decide, by decide, by decide⟩

/-- C3 (amended): for an update on an existing deck (stored with distinct
field keys) that supplies at least one field, the returned `updated` flag is
true iff some *written* field — a supplied field or the automatically stamped
`updated_at` timestamp — differs from the value already stored; in
particular, whenever the current instant differs from the stored timestamp
the flag is true even if every supplied field matches the stored value. -/
theorem C3_amended (store : Store) (d : DocFields) (deck_id : String)
    (p : DeckUpdate) (now : Nat)
    (hvalid : ObjectId.is_valid deck_id = true)
    (hfound : alookup store deck_id = some d)
    (hsupplied : p.toSet ≠ .nil)
    (hd : d.keys.Nodup) :
    ∃ b, (update_deck (some store) deck_id p now).1 = .ok (updatedBody b)
      ∧ (b = true ↔ ∃ (k : String) (v : Value),
          ((p.toSet).append (.cons "updated_at" (.vTime now) .nil)).lookup k
            = some v
          ∧ d.lookup k ≠ some v) := by
  have hnodup := DeckUpdate.toSet_full_keys_nodup p now
  have hiff := DocFields.applySet_eq_self_iff d
    ((p.toSet).append (.cons "updated_at" (.vTime now) .nil)) hnodup hd
  have hstep : (update_deck (some store) deck_id p now).1
      = .ok (updatedBody (decide (0 <
          (if applySet d ((p.toSet).append (.cons "updated_at" (.vTime now) .nil)) = d
           then 0 else 1)))) := by
    unfold update_deck update_one
    simp [hsupplied, hvalid, hfound]
  by_cases happ :
      applySet d ((p.toSet).append (.cons "updated_at" (.vTime now) .nil)) = d
  · refine ⟨false, ?_, ?_⟩
    · rw [hstep]
      simp [happ]
    · simp only [Bool.false_eq_true, false_iff]
      rintro ⟨k, v, hl, hne⟩
      exact hne (hiff.1 happ k v hl)
  · refine ⟨true, ?_, ?_⟩
    · rw [hstep]
      simp [happ]
    · simp only [true_iff]
      by_contra hno
      push_neg at hno
      refine happ (hiff.2 ?_)
      intro k v hl
      exact hno k v hl

/-- C3 amended witness: the amended theorem evaluated on a concrete store
holding one deck, with a payload that changes the name. -/
theorem C3_amended_witness :
    ∃ b, (update_deck
        (some [("aaaaaaaaaaaaaaaaaaaaaaaa",
          DocFields.cons "_id" (.vOid "aaaaaaaaaaaaaaaaaaaaaaaa")
            (.cons "name" (.vStr "A")
              (.cons "updated_at" (.vTime 0) .nil)))])
        "aaaaaaaaaaaaaaaaaaaaaaaa"
        { name := some "B", format := none, description := none, cards := none }
        7).1
      = .ok (updatedBody b)
      ∧ (b = true ↔ ∃ (k : String) (v : Value),
          ((DeckUpdate.toSet
              { name := some "B", format := none, description := none,
                cards := none }).append
            (.cons "updated_at" (.vTime 7) .nil)).lookup k = some v
          ∧ (DocFields.cons "_id" (.vOid "aaaaaaaaaaaaaaaaaaaaaaaa")
              (.cons "name" (.vStr "A")
                (.cons "updated_at" (.vTime 0) .nil))).lookup k ≠ some v) :=
  C3_amended
    [("aaaaaaaaaaaaaaaaaaaaaaaa",
      DocFields.cons "_id" (.vOid "aaaaaaaaaaaaaaaaaaaaaaaa")
        (.cons "name" (.vStr "A") (.cons "updated_at" (.vTime 0) .nil)))]
    (DocFields.cons "_id" (.vOid "aaaaaaaaaaaaaaaaaaaaaaaa")
      (.cons "name" (.vStr "A") (.cons "updated_at" (.vTime 0) .nil)))
    "aaaaaaaaaaaaaaaaaaaaaaaa"
    { name := some "B", format := none, description := none, cards := none }
    7 (by decide) (by decide) (by decide) (by decide)

/-! ## Claim C10: explicit null fields in update bodies -/

/-- Erasure of an explicitly-null optional field (turn `some none`, an
explicit JSON `null`, into `none`, an omitted key). -/
def dropNull {α : Type} : Option (Option α) → Option (Option α)
  | some none => none
  | o => o

/-- An update body with every explicitly-null field removed. -/
def DeckUpdateRaw.dropNullFields (r : DeckUpdateRaw) : DeckUpdateRaw :=
  { name := dropNull r.name, format := dropNull r.format,
    description := dropNull r.description, cards := dropNull r.cards }

theorem join_dropNull {α : Type} (o : Option (Option α)) :
    (dropNull o).join = o.join := by
  rcases o with _ | _ | _ <;> rfl

theorem lookup_optField_eq {key k : String} {o : Option Value} {v : Value}
    (h : (optField key o).lookup k = some v) : o = some v := by
  cases o with
  | none => simp [optField, DocFields.lookup] at h
  | some w =>
    by_cases hk : key = k
    · simp [optField, DocFields.lookup, hk] at h
      rw [h]
    · simp [optField, DocFields.lookup, hk] at h

theorem lookup_append_or {a b : DocFields} {k : String} {v : Value}
    (h : (a.append b).lookup k = some v) :
    a.lookup k = some v ∨ b.lookup k = some v := by
  rw [DocFields.lookup_append] at h
  cases ha : a.lookup k with
  | none => rw [ha] at h; exact Or.inr h
  | some w => rw [ha] at h; exact Or.inl h

theorem map_ne_vNull {α : Type} (f : α → Value) (hf : ∀ a, f a ≠ .vNull)
    {o : Option α} {v : Value} (h : o.map f = some v) : v ≠ .vNull := by
  cases o with
  | none => simp at h
  | some a =>
    simp at h
    rw [← h]
    exact hf a

/-- No value ever written by `update_deck` out of a payload is JSON null. -/
theorem DeckUpdate.toSet_no_vNull (p : DeckUpdate) (k : String) (v : Value)
    (h : p.toSet.lookup k = some v) : v ≠ .vNull := by
  unfold DeckUpdate.toSet at h
  rcases lookup_append_or h with h1 | h
  · exact map_ne_vNull _ (fun s => by simp) (lookup_optField_eq h1)
  rcases lookup_append_or h with h1 | h
  · exact map_ne_vNull _ (fun s => by simp) (lookup_optField_eq h1)
  rcases lookup_append_or h with h1 | h
  · exact map_ne_vNull _ (fun s => by simp) (lookup_optField_eq h1)
  · exact map_ne_vNull _ (fun cs => by simp) (lookup_optField_eq h)

/-- C10: pydantic parsing of an update body maps an explicitly-null field and
an omitted field to the same parsed payload, so the `exclude_none=True` dump
excludes both; no deck field can be set to null through an update; and a body
whose supplied fields are all null takes the empty-body no-op path, returning
`updated: false` and leaving the store untouched. -/
theorem C10_null_equals_omitted :
    (∀ r : DeckUpdateRaw, parseDeckUpdate r = parseDeckUpdate r.dropNullFields)
    ∧ (∀ (r : DeckUpdateRaw) (k : String) (v : Value),
        (parseDeckUpdate r).toSet.lookup k = some v → v ≠ .vNull)
    ∧ (∀ (r : DeckUpdateRaw) (store : Store) (deck_id : String) (now : Nat),
        r.name.join = none → r.format.join = none → r.description.join = none →
        r.cards.join = none →
        update_deck (some store) deck_id (parseDeckUpdate r) now
          = (.ok (updatedBody false), some store)) := by
  refine ⟨?_, ?_, ?_⟩
  · intro r
    unfold parseDeckUpdate DeckUpdateRaw.dropNullFields
    rw [join_dropNull, join_dropNull, join_dropNull, join_dropNull]
  · intro r k v h
    exact DeckUpdate.toSet_no_vNull _ k v h
  · intro r store deck_id now h1 h2 h3 h4
    have hp : parseDeckUpdate r
        = { name := none, format := none, description := none, cards := none } := by
      unfold parseDeckUpdate
      rw [h1, h2, h3, h4]
    rw [hp]
    rfl

/-- C10 witness: the no-op branch of the theorem evaluated on a body whose
three supplied fields are all explicit nulls, over the empty store. -/
theorem C10_null_equals_omitted_witness :
    update_deck (some ([] : Store)) "abc"
      (parseDeckUpdate
        { name := some none, format := some none, description := none,
          cards := some none }) 3
      = (.ok (updatedBody false), some []) :=
  C10_null_equals_omitted.2.2
    { name := some none, format := some none, description := none,
      cards := some none }
    [] "abc" 3 rfl rfl rfl rfl

end MTGBackend
